import Mathlib

/-!
Verification of the Mutable SDK session/game-state synchronization engine.

Shallow embedding of `src/modules/game-state.ts` (class `GameStateModule`)
and of the analytics event-batching queue (`AnalyticsModule`), over the
data model of `src/types/index.ts`.

Modelling conventions:
* JavaScript `Record<string, T>` objects are association lists
  `List (String × T)`; object-spread `{...m, [k]: v}` is `recSet`
  (replace in place when the key exists, append otherwise) and property
  access `m[k]` is `recLookup`.
* `Partial<T>` payloads are structures of `Option`-valued fields; a
  `some` field is a key present in the partial and overrides the base
  field under spread-merge.  (The corner of a key explicitly present
  with value `undefined` is not distinguished from an absent key; no
  code path in the repository exercises it.)
* `await`ed backend calls are environment inputs of type
  `Except String (ApiResponse α)`: `.error` is a rejected promise
  (transport failure), `.ok` is a resolved response envelope.
* Thrown JavaScript errors are `JsError`: `.sdk` is a `MutableSDKError`
  with its `code`, `message` and optional `details` cause; `.raw` is any
  other thrown value (transport reason or envelope `error` payload).
* Subscriber callbacks are identified by `Nat` (reference identity);
  a behavior environment `Nat → α → Except String Unit` says whether a
  given callback returns or throws on a given snapshot.  Notification
  produces a `NotifyTrace`: the ordered list of (callback, value)
  invocations and the error-log entries emitted by the `catch` arms.
-/

namespace Mutable

/-- Error codes from the `ErrorCode` enum in `src/types/index.ts`. -/
inductive ErrorCode where
  | authenticationFailed
  | connectionError
  | invalidGameState
  | transactionFailed
  | unityLoadError
  | unityCommunicationError
  | invalidConfiguration
  | unknownError
deriving DecidableEq, Repr

/-- A thrown JavaScript value: a `MutableSDKError` (code, message,
optional wrapped cause) or any other raw value such as a transport
rejection reason or a response-envelope `error` payload. -/
inductive JsError where
  | sdk (code : ErrorCode) (message : String) (details : Option JsError)
  | raw (s : String)
deriving Repr

/-- Free-form `Record<string, any>` payloads, abstracted to string values. -/
def CustomData : Type := List (String × String)
deriving instance DecidableEq, Repr for CustomData

/-- `GameInfo` from `src/types/index.ts`. -/
structure GameInfo where
  id : String
  name : String
  version : String
  buildId : Option String := none
deriving DecidableEq, Repr

/-- `PlayerInfo` from `src/types/index.ts`. -/
structure PlayerInfo where
  id : String
  name : String
  walletAddress : Option String := none
  avatarUrl : Option String := none
deriving DecidableEq, Repr

/-- Session lifecycle status. -/
inductive SessionStatus where
  | waiting
  | playing
  | completed
  | aborted
deriving DecidableEq, Repr

/-- Game state lifecycle status. -/
inductive GameStatus where
  | waiting
  | playing
  | paused
  | completed
deriving DecidableEq, Repr

/-- Player status within a game. -/
inductive PlayerStatus where
  | active
  | inactive
  | eliminated
deriving DecidableEq, Repr

/-- 2-or-3-axis position (numbers modelled as `Int`; no claim involves
fractional arithmetic). -/
structure Position where
  x : Int
  y : Int
  z : Option Int := none
deriving DecidableEq, Repr

/-- `GameSession` from `src/types/index.ts`. -/
structure GameSession where
  sessionId : String
  gameId : String
  modeId : String
  players : List PlayerInfo
  startTime : Int
  status : SessionStatus
  hostId : String
deriving DecidableEq, Repr

/-- `PlayerState` from `src/types/index.ts`. -/
structure PlayerState where
  playerId : String
  status : PlayerStatus
  score : Int
  lives : Option Int := none
  position : Option Position := none
  customData : Option CustomData := none
deriving DecidableEq, Repr

/-- `GameState` from `src/types/index.ts`; `playerStates` is the
`Record<string, PlayerState>` mapping as an association list. -/
structure GameState where
  sessionId : String
  status : GameStatus
  currentRound : Option Int := none
  score : Option Int := none
  timeRemaining : Option Int := none
  playerStates : Option (List (String × PlayerState)) := none
  customData : Option CustomData := none
deriving DecidableEq, Repr

/-- `Partial<PlayerState>`: each field optionally present. -/
structure PartialPlayerState where
  playerId : Option String := none
  status : Option PlayerStatus := none
  score : Option Int := none
  lives : Option Int := none
  position : Option Position := none
  customData : Option CustomData := none
deriving DecidableEq, Repr

/-- `Partial<GameState>`: each field optionally present. -/
structure PartialGameState where
  sessionId : Option String := none
  status : Option GameStatus := none
  currentRound : Option Int := none
  score : Option Int := none
  timeRemaining : Option Int := none
  playerStates : Option (List (String × PlayerState)) := none
  customData : Option CustomData := none
deriving DecidableEq, Repr

/-- Property lookup `m[k]` on a `Record<string, T>` object. -/
def recLookup (m : List (String × α)) (k : String) : Option α :=
  match m with
  | [] => none
  | e :: rest => if e.1 = k then some e.2 else recLookup rest k

/-- Whether `k` is a key of the object. -/
def recHas (m : List (String × α)) (k : String) : Bool :=
  m.any (fun e => decide (e.1 = k))

/-- Object spread `{...m, [k]: v}`: when `k` is already a key its value
is replaced in place, otherwise the new key is appended at the end. -/
def recSet (m : List (String × α)) (k : String) (v : α) : List (String × α) :=
  if recHas m k then
    m.map (fun e => if e.1 = k then (k, v) else e)
  else
    m ++ [(k, v)]

/-- One field of a spread-merge: a key present in the update overrides
the base value. -/
def overrideField (u : Option α) (b : Option α) : Option α :=
  match u with
  | some x => some x
  | none => b

/-- Spread-merge `{...base, ...upd}` of a partial PlayerState over a
full one (field-level merge, `src/modules/game-state.ts` line 286). -/
def mergePlayerState (base : PlayerState) (upd : PartialPlayerState) : PlayerState :=
  { playerId := upd.playerId.getD base.playerId
    status := upd.status.getD base.status
    score := upd.score.getD base.score
    lives := overrideField upd.lives base.lives
    position := overrideField upd.position base.position
    customData := overrideField upd.customData base.customData }

/-- The lazily-created default PlayerState
`{ playerId, status: "active", score: 0 }`. -/
def defaultPlayerState (playerId : String) : PlayerState :=
  { playerId := playerId, status := .active, score := 0 }

/-- Uniform response envelope `{success, data?, error?}` returned by
`ApiClient.post`/`get`. -/
structure ApiResponse (α : Type) where
  success : Bool
  data : Option α := none
  error : Option String := none
deriving Repr

/-- Payload of a successful `/sessions/create` or `/sessions/:id/join`
response (`response.data.session`). -/
structure SessionData where
  session : GameSession
deriving Repr

/-- Payload of a successful `/sessions/:id/state` response
(`response.data.state`). -/
structure StateData where
  state : GameState
deriving Repr

/-- Trace of one notification pass: the ordered callback invocations
(with the snapshot value each received) and the log entries written by
the per-callback `catch` arms. -/
structure NotifyTrace (α : Type) where
  calls : List (Nat × α)
  logs : List String
deriving Repr

/-- Whether a callback run threw. -/
def threw (r : Except String Unit) : Bool :=
  match r with
  | .ok _ => false
  | .error _ => true

/-- The notification loop
`for (const callback of cbs) { try { callback(v) } catch (e) { log } }`:
every callback is invoked; a throwing callback adds a log entry and the
loop continues. -/
def runCallbackList (behavior : Nat → α → Except String Unit)
    (cbs : List Nat) (v : α) (msg : String) : NotifyTrace α :=
  match cbs with
  | [] => ⟨[], []⟩
  | c :: rest =>
    let tail := runCallbackList behavior rest v msg
    match behavior c v with
    | .ok _ => ⟨(c, v) :: tail.calls, tail.logs⟩
    | .error _ => ⟨(c, v) :: tail.calls, msg :: tail.logs⟩

/-- The mutable fields of a `GameStateModule` instance.  Callbacks are
identified by `Nat`; `wsConnected` tracks whether the push channel is
attached (`wsClient.connect` / `wsClient.disconnect`). -/
structure ModuleState where
  gameInfo : Option GameInfo := none
  player : Option PlayerInfo := none
  currentSession : Option GameSession := none
  currentState : Option GameState := none
  stateUpdateCallbacks : List Nat := []
  sessionUpdateCallbacks : List Nat := []
  wsConnected : Bool := false
deriving DecidableEq, Repr

/-- `getCurrentSession()` (line 350). -/
def getCurrentSession (s : ModuleState) : Option GameSession :=
  s.currentSession

/-- `getCurrentState()` (line 357). -/
def getCurrentState (s : ModuleState) : Option GameState :=
  s.currentState

/-- `validateInitialization()` (lines 484-492). -/
def validateInitialization (s : ModuleState) : Except JsError Unit :=
  match s.gameInfo with
  | none => .error (.sdk .invalidConfiguration
      "GameStateModule not initialized with game info" none)
  | some _ =>
    match s.player with
    | none => .error (.sdk .invalidConfiguration
        "GameStateModule not initialized with player info" none)
    | some _ => .ok ()

/-- `notifyStateUpdateCallbacks()` (lines 454-464): returns without
invoking anything when `currentState` is absent. -/
def notifyStateUpdateCallbacks (behavior : Nat → GameState → Except String Unit)
    (s : ModuleState) : NotifyTrace GameState :=
  match s.currentState with
  | none => ⟨[], []⟩
  | some st =>
    runCallbackList behavior s.stateUpdateCallbacks st
      "Error in state update callback"

/-- `notifySessionUpdateCallbacks()` (lines 469-479). -/
def notifySessionUpdateCallbacks (behavior : Nat → GameSession → Except String Unit)
    (s : ModuleState) : NotifyTrace GameSession :=
  match s.currentSession with
  | none => ⟨[], []⟩
  | some sess =>
    runCallbackList behavior s.sessionUpdateCallbacks sess
      "Error in session update callback"

/-- `onStateUpdate(callback)` (lines 366-372): push onto the list. -/
def onStateUpdate (s : ModuleState) (c : Nat) : ModuleState :=
  { s with stateUpdateCallbacks := s.stateUpdateCallbacks ++ [c] }

/-- The unregister closure returned by `onStateUpdate`:
`stateUpdateCallbacks = stateUpdateCallbacks.filter((cb) => cb !== callback)`. -/
def unregisterStateUpdate (s : ModuleState) (c : Nat) : ModuleState :=
  { s with stateUpdateCallbacks :=
      s.stateUpdateCallbacks.filter (fun x => decide (x ≠ c)) }

/-- `onSessionUpdate(callback)` (lines 379-385). -/
def onSessionUpdate (s : ModuleState) (c : Nat) : ModuleState :=
  { s with sessionUpdateCallbacks := s.sessionUpdateCallbacks ++ [c] }

/-- The unregister closure returned by `onSessionUpdate`. -/
def unregisterSessionUpdate (s : ModuleState) (c : Nat) : ModuleState :=
  { s with sessionUpdateCallbacks :=
      s.sessionUpdateCallbacks.filter (fun x => decide (x ≠ c)) }

/-- `connectToSession(sessionId)` (lines 391-406): awaits
`wsClient.connect()`, wrapping a connection failure in a
CONNECTION_ERROR; on success sends the fire-and-forget
`join_session` message (no local state effect beyond attachment). -/
def connectToSession (s : ModuleState) (ws : Except String Unit) :
    ModuleState × Except JsError Unit :=
  match ws with
  | .ok _ => ({ s with wsConnected := true }, .ok ())
  | .error e =>
    (s, .error (.sdk .connectionError
        "Failed to connect to session via WebSocket" (some (.raw e))))

/-- `createSession(modeId, isPublic)` (lines 67-98).  `api` is the
outcome of `apiClient.post("/sessions/create", ...)`; `ws` the outcome
of the WebSocket connect; `behavior` drives the session subscribers
notified on success.  Every failure inside the `try` is rewrapped by
the `catch` as INVALID_GAME_STATE "Failed to create game session"
carrying the original cause. -/
def createSession (s : ModuleState) (modeId : String) (isPublic : Bool)
    (api : Except String (ApiResponse SessionData)) (ws : Except String Unit)
    (behavior : Nat → GameSession → Except String Unit) :
    ModuleState × Except JsError GameSession × NotifyTrace GameSession :=
  let wrap : JsError → JsError := fun e =>
    .sdk .invalidGameState "Failed to create game session" (some e)
  match validateInitialization s with
  | .error e => (s, .error (wrap e), ⟨[], []⟩)
  | .ok _ =>
    match api with
    | .error e => (s, .error (wrap (.raw e)), ⟨[], []⟩)
    | .ok resp =>
      match resp.data, resp.success with
      | some d, true =>
        let s1 := { s with currentSession := some d.session }
        match connectToSession s1 ws with
        | (s2, .ok _) =>
          (s2, .ok d.session, notifySessionUpdateCallbacks behavior s2)
        | (s2, .error e) => (s2, .error (wrap e), ⟨[], []⟩)
      | _, _ =>
        (s, .error (wrap (.sdk .invalidGameState
            "Failed to create game session" (resp.error.map .raw))), ⟨[], []⟩)

/-- `leaveSession()` (lines 136-160).  With no active session: warn and
return.  Otherwise the leave request is awaited first (its envelope is
never inspected); only when it resolves does the code disconnect the
push channel and clear `currentSession`/`currentState`.  A rejected
request is caught and rethrown as INVALID_GAME_STATE with nothing
detached or cleared. -/
def leaveSession (s : ModuleState) (api : Except String (ApiResponse Unit)) :
    ModuleState × Except JsError Unit :=
  match s.currentSession with
  | none => (s, .ok ())
  | some _ =>
    match api with
    | .error e =>
      (s, .error (.sdk .invalidGameState
          "Failed to leave game session" (some (.raw e))))
    | .ok _ =>
      ({ s with currentSession := none, currentState := none,
                wsConnected := false },
       .ok ())

/-- `endSession(winnerIds)` (lines 200-221): sends the end request and
— success or envelope failure alike — performs no local mutation; a
rejected request is rethrown wrapped.  The completed transition is left
to arrive over the push channel. -/
def endSession (s : ModuleState) (winnerIds : Option (List String))
    (api : Except String (ApiResponse Unit)) :
    ModuleState × Except JsError Unit :=
  match s.currentSession with
  | none =>
    (s, .error (.sdk .invalidGameState "Failed to end game session"
        (some (.sdk .invalidGameState "No active session to end" none))))
  | some _ =>
    match api with
    | .error e =>
      (s, .error (.sdk .invalidGameState
          "Failed to end game session" (some (.raw e))))
    | .ok _ => (s, .ok ())

/-- `updateGameState(stateUpdate)` (lines 227-264): requires an active
session; sends the partial over the push channel fire-and-forget, then
awaits the persistence request; on a successful envelope with data the
returned state replaces `currentState` wholesale and state subscribers
are notified; otherwise the failure is wrapped as INVALID_GAME_STATE
"Failed to update game state". -/
def updateGameState (s : ModuleState) (upd : PartialGameState)
    (api : Except String (ApiResponse StateData))
    (behavior : Nat → GameState → Except String Unit) :
    ModuleState × Except JsError GameState × NotifyTrace GameState :=
  let wrap : JsError → JsError := fun e =>
    .sdk .invalidGameState "Failed to update game state" (some e)
  match s.currentSession with
  | none =>
    (s, .error (wrap (.sdk .invalidGameState
        "No active session to update state" none)), ⟨[], []⟩)
  | some _ =>
    match api with
    | .error e => (s, .error (wrap (.raw e)), ⟨[], []⟩)
    | .ok resp =>
      match resp.data, resp.success with
      | some d, true =>
        let s2 := { s with currentState := some d.state }
        (s2, .ok d.state, notifyStateUpdateCallbacks behavior s2)
      | _, _ =>
        (s, .error (wrap (.sdk .invalidGameState
            "Failed to update game state" (resp.error.map .raw))), ⟨[], []⟩)

/-- The derived partial GameState built by `updatePlayerState`
(lines 282-290):
`{ playerStates: { ...(currentState?.playerStates || {}),
   [playerId]: { ...(currentState?.playerStates?.[playerId]
                     || { playerId, status: "active", score: 0 }),
                 ...playerState } } }`. -/
def buildPlayerStateUpdate (s : ModuleState) (playerId : String)
    (upd : PartialPlayerState) : PartialGameState :=
  let existing := (s.currentState.bind GameState.playerStates).getD []
  let base := (recLookup existing playerId).getD (defaultPlayerState playerId)
  { playerStates := some (recSet existing playerId (mergePlayerState base upd)) }

/-- `updatePlayerState(playerId, playerState)` (lines 271-297): builds
the derived partial and delegates to `updateGameState`; its own `catch`
rewraps any failure as INVALID_GAME_STATE
"Failed to update player state". -/
def updatePlayerState (s : ModuleState) (playerId : String)
    (upd : PartialPlayerState) (api : Except String (ApiResponse StateData))
    (behavior : Nat → GameState → Except String Unit) :
    ModuleState × Except JsError GameState × NotifyTrace GameState :=
  let wrap : JsError → JsError := fun e =>
    .sdk .invalidGameState "Failed to update player state" (some e)
  match s.currentSession with
  | none =>
    (s, .error (wrap (.sdk .invalidGameState
        "No active session to update player state" none)), ⟨[], []⟩)
  | some _ =>
    match updateGameState s (buildPlayerStateUpdate s playerId upd) api behavior with
    | (s2, .ok st, tr) => (s2, .ok st, tr)
    | (s2, .error e, tr) => (s2, .error (wrap e), tr)

/-- The `session_update` push-channel handler (lines 413-418):
`currentSession = data.session` wholesale, then notify session
subscribers. -/
def handleSessionUpdateEvent (s : ModuleState) (snapshot : GameSession)
    (behavior : Nat → GameSession → Except String Unit) :
    ModuleState × NotifyTrace GameSession :=
  let s2 := { s with currentSession := some snapshot }
  (s2, notifySessionUpdateCallbacks behavior s2)

/-- The `game_state_update` push-channel handler (lines 421-426). -/
def handleGameStateUpdateEvent (s : ModuleState) (snapshot : GameState)
    (behavior : Nat → GameState → Except String Unit) :
    ModuleState × NotifyTrace GameState :=
  let s2 := { s with currentState := some snapshot }
  (s2, notifyStateUpdateCallbacks behavior s2)

/-- Event types of the analytics pipeline (`EventType`). -/
inductive EventType where
  | gameStart
  | gameEnd
  | roundStart
  | roundEnd
  | playerJoin
  | playerLeave
  | transaction
  | error
  | custom
deriving DecidableEq, Repr

/-- `EventData` analytics record from `src/types/index.ts`. -/
structure EventData where
  eventType : EventType
  timestamp : Int
  gameId : String
  sessionId : Option String := none
  playerId : Option String := none
  data : Option CustomData := none
deriving DecidableEq, Repr

/-- `MAX_QUEUE_SIZE` of `AnalyticsModule`. -/
def MAX_QUEUE_SIZE : Nat := 100

/-- The mutable fields of an `AnalyticsModule` instance. -/
structure AnalyticsState where
  gameInfo : Option GameInfo := none
  player : Option PlayerInfo := none
  sessionId : Option String := none
  eventQueue : List EventData := []
  isProcessingQueue : Bool := false
deriving DecidableEq, Repr

/-- `AnalyticsModule.trackEvent` (part_008 lines 100-127): uninitialized
tracking throws, is caught and logged (swallowed, state unchanged);
otherwise the event is appended and a flush is triggered when the queue
has reached `MAX_QUEUE_SIZE`.  Returns the new state and whether
`flushEvents` was triggered. -/
def trackEvent (st : AnalyticsState) (eventType : EventType)
    (timestamp : Int) (data : Option CustomData) : AnalyticsState × Bool :=
  match st.gameInfo with
  | none => (st, false)
  | some gi =>
    let ev : EventData :=
      { eventType := eventType, timestamp := timestamp, gameId := gi.id,
        sessionId := st.sessionId, playerId := st.player.map PlayerInfo.id,
        data := data }
    let st2 := { st with eventQueue := st.eventQueue ++ [ev] }
    (st2, decide (st2.eventQueue.length ≥ MAX_QUEUE_SIZE))

/-- `AnalyticsModule.flushEvents(sync)` (part_008 lines 197-230).
`api` is the outcome of `apiClient.post("/analytics/events", ...)`;
`arrivals` are the events enqueued by `trackEvent` while that call was
awaited (they are the live queue content when the response lands; the
parameter is irrelevant on the early-return path, where no suspension
occurs).  On `success:false` the snapshot is prepended back
(`[...events, ...this.eventQueue]`); in the `catch` arm the source
executes `this.eventQueue = [...this.eventQueue]`, which does NOT
restore the snapshot — the taken events are dropped. -/
def flushEvents (st : AnalyticsState) (sync : Bool)
    (api : Except String (ApiResponse Unit)) (arrivals : List EventData) :
    AnalyticsState :=
  if st.eventQueue.isEmpty || (st.isProcessingQueue && !sync) then st
  else
    let events := st.eventQueue
    match api with
    | .error _ =>
      { st with eventQueue := arrivals, isProcessingQueue := false }
    | .ok resp =>
      if resp.success then
        { st with eventQueue := arrivals, isProcessingQueue := false }
      else
        { st with eventQueue := events ++ arrivals, isProcessingQueue := false }

/-! Concrete instances used by witnesses and counterexamples. -/

/-- Example game info. -/
def giEx : GameInfo :=
  { id := "game-1", name := "Test Game", version := "1.0.0" }

/-- Example local player. -/
def playerEx : PlayerInfo :=
  { id := "p1", name := "Alice" }

/-- Example second player. -/
def playerEx2 : PlayerInfo :=
  { id := "p2", name := "Bob" }

/-- Example active session hosting both players. -/
def sessEx : GameSession :=
  { sessionId := "s1", gameId := "game-1", modeId := "standard",
    players := [playerEx, playerEx2], startTime := 0,
    status := .playing, hostId := "p1" }

/-- A pre-existing PlayerState for the second player. -/
def psP2 : PlayerState :=
  { playerId := "p2", status := .active, score := 5 }

/-- Example current GameState whose playerStates mapping already holds
an entry for player p2 (and none for p1). -/
def gsEx : GameState :=
  { sessionId := "s1", status := .playing,
    playerStates := some [("p2", psP2)] }

/-- A fully active module: initialized, in session s1, holding gsEx,
with two state subscribers and one session subscriber, push channel
attached. -/
def sActive : ModuleState :=
  { gameInfo := some giEx, player := some playerEx,
    currentSession := some sessEx, currentState := some gsEx,
    stateUpdateCallbacks := [0, 1], sessionUpdateCallbacks := [2],
    wsConnected := true }

/-- A module that was never initialized. -/
def sUninit : ModuleState := {}

/-- An initialized module with no active session. -/
def sNoSession : ModuleState :=
  { gameInfo := some giEx, player := some playerEx,
    stateUpdateCallbacks := [0], sessionUpdateCallbacks := [1] }

/-- A module with subscribers registered but no snapshot present. -/
def sEmpty : ModuleState :=
  { stateUpdateCallbacks := [0, 1], sessionUpdateCallbacks := [0] }

/-- State-subscriber behavior where callback 0 throws and the rest
return. -/
def throwingSB : Nat → GameState → Except String Unit :=
  fun c _ => if c == 0 then .error "boom" else .ok ()

/-- Session-subscriber behavior that always returns. -/
def okCB : Nat → GameSession → Except String Unit :=
  fun _ _ => .ok ()

/-- State-subscriber behavior that always returns. -/
def okSB : Nat → GameState → Except String Unit :=
  fun _ _ => .ok ()

/-- Example analytics event. -/
def evEx : EventData :=
  { eventType := .gameStart, timestamp := 0, gameId := "game-1" }

/-- An initialized analytics module holding one queued event. -/
def aEx : AnalyticsState :=
  { gameInfo := some giEx, eventQueue := [evEx] }

/-! Helper lemmas about the notification loop and the Record operations. -/

/-- The notification loop invokes every callback, in list order, with
the snapshot value, whatever each callback's behavior is. -/
theorem runCallbackList_calls (behavior : Nat → α → Except String Unit)
    (v : α) (msg : String) :
    ∀ cbs : List Nat,
      (runCallbackList behavior cbs v msg).calls = cbs.map (fun c => (c, v)) := by
  intro cbs
  induction cbs with
  | nil => rfl
  | cons c rest ih =>
    unfold runCallbackList
    cases h : behavior c v <;> simp [h, ih]

/-- The notification loop logs exactly one entry per throwing callback. -/
theorem runCallbackList_logs (behavior : Nat → α → Except String Unit)
    (v : α) (msg : String) :
    ∀ cbs : List Nat,
      (runCallbackList behavior cbs v msg).logs
        = (cbs.filter (fun c => threw (behavior c v))).map (fun _ => msg) := by
  intro cbs
  induction cbs with
  | nil => rfl
  | cons c rest ih =>
    unfold runCallbackList
    cases h : behavior c v <;> simp [h, ih, threw, List.filter_cons]

/-- Looking up the written key after an in-place replace. -/
theorem recLookup_map_replace (k : String) (v : α) :
    ∀ m : List (String × α), recHas m k = true →
      recLookup (m.map (fun e => if e.1 = k then (k, v) else e)) k = some v := by
  intro m
  induction m with
  | nil => intro h; simp [recHas] at h
  | cons e rest ih =>
    intro h
    by_cases he : e.1 = k
    · simp [recLookup, he]
    · have hr : recHas rest k = true := by
        simpa [recHas, List.any_cons, he] using h
      simp [recLookup, he, ih hr]

/-- Looking up the written key after appending it as a new entry. -/
theorem recLookup_append_new (k : String) (v : α) :
    ∀ m : List (String × α),
      recLookup (m ++ [(k, v)]) k = ((recLookup m k).orElse (fun _ => some v)) := by
  intro m
  induction m with
  | nil => simp [recLookup, Option.orElse]
  | cons e rest ih =>
    by_cases he : e.1 = k
    · simp [recLookup, he, Option.orElse]
    · simp [recLookup, he, ih]

/-- A key the object does not have looks up to nothing. -/
theorem recLookup_eq_none_of_not_has (k : String) :
    ∀ m : List (String × α), recHas m k = false → recLookup m k = none := by
  intro m
  induction m with
  | nil => intro _; rfl
  | cons e rest ih =>
    intro h
    by_cases he : e.1 = k
    · simp [recHas, List.any_cons, he] at h
    · have hr : recHas rest k = false := by
        simpa [recHas, List.any_cons, he] using h
      simp [recLookup, he, ih hr]

/-- `recSet` stores the written value under the written key. -/
theorem recLookup_recSet_self (m : List (String × α)) (k : String) (v : α) :
    recLookup (recSet m k v) k = some v := by
  unfold recSet
  by_cases h : recHas m k = true
  · simp only [h, if_true]
    exact recLookup_map_replace k v m h
  · have h' : recHas m k = false := Bool.eq_false_iff.mpr (fun hc => h hc)
    simp only [h', Bool.false_eq_true, if_false]
    rw [recLookup_append_new k v m, recLookup_eq_none_of_not_has k m h']
    rfl

/-- In-place replacement of key `k` leaves all other entries unchanged. -/
theorem filter_map_replace (k : String) (v : α) :
    ∀ m : List (String × α),
      (m.map (fun e => if e.1 = k then (k, v) else e)).filter
          (fun e => decide (e.1 ≠ k))
        = m.filter (fun e => decide (e.1 ≠ k)) := by
  intro m
  induction m with
  | nil => rfl
  | cons e rest ih =>
    by_cases he : e.1 = k
    · simpa [List.filter_cons, he] using ih
    · simpa [List.filter_cons, he] using ih

/-- `recSet` leaves all entries other than the written key unchanged. -/
theorem recSet_filter_ne (m : List (String × α)) (k : String) (v : α) :
    (recSet m k v).filter (fun e => decide (e.1 ≠ k))
      = m.filter (fun e => decide (e.1 ≠ k)) := by
  unfold recSet
  by_cases h : recHas m k = true
  · simp only [h, if_true]
    exact filter_map_replace k v m
  · have h' : recHas m k = false := Bool.eq_false_iff.mpr (fun hc => h hc)
    simp [h', List.filter_append, List.filter_cons]

/-- Size of the mapping after `recSet`: unchanged when the key was
present, one longer when it was new. -/
theorem recSet_length (m : List (String × α)) (k : String) (v : α) :
    (recSet m k v).length
      = (if recHas m k then m.length else m.length + 1) := by
  unfold recSet
  by_cases h : recHas m k = true
  · simp [h]
  · have h' : recHas m k = false := Bool.eq_false_iff.mpr (fun hc => h hc)
    simp [h']

/-- Removing by identity twice is the same as removing once. -/
theorem filter_ne_idem (c : Nat) :
    ∀ l : List Nat,
      (l.filter (fun x => decide (x ≠ c))).filter (fun x => decide (x ≠ c))
        = l.filter (fun x => decide (x ≠ c)) := by
  intro l
  induction l with
  | nil => rfl
  | cons a t ih =>
    by_cases h : a = c
    · simp [List.filter_cons, h, ih]
    · simp [List.filter_cons, h, ih]

/-- `all` over the first components of a constant-pairing map. -/
theorem all_fst_map (v : α) (q : Nat → Bool) :
    ∀ l : List Nat,
      ((l.map (fun c => (c, v))).all (fun p => q p.1)) = l.all q := by
  intro l
  induction l with
  | nil => rfl
  | cons a t ih => simp [ih]

/-- Every survivor of a filter satisfies the filter predicate. -/
theorem all_filter_self (q : Nat → Bool) :
    ∀ l : List Nat, (l.filter q).all q = true := by
  intro l
  induction l with
  | nil => rfl
  | cons a t ih =>
    by_cases h : q a = true
    · simp [List.filter_cons, h, ih]
    · have h' : q a = false := Bool.eq_false_iff.mpr (fun hc => h hc)
      simp [List.filter_cons, h', ih]

/-! Claim theorems. -/

/-- Claim C1 (counterexample): with an active session whose current
GameState already holds a PlayerState for p2, the partial built by
`updatePlayerState("p1", {})` has a `playerStates` mapping with TWO
entries — the untouched p2 entry plus the merged p1 entry — not
exactly one entry keyed by the updated player. -/
theorem updatePlayerState_partial_not_single_entry :
    (((buildPlayerStateUpdate sActive "p1" {}).playerStates.getD []).length = 2)
    ∧ (recLookup ((buildPlayerStateUpdate sActive "p1" {}).playerStates.getD []) "p2"
        = some psP2)
    ∧ ¬(((buildPlayerStateUpdate sActive "p1" {}).playerStates.getD []).length = 1) := by
  refine ⟨rfl, rfl, ?_⟩
  decide

/-- Claim C1 (amended): the partial GameState handed to
`updateGameState` by `updatePlayerState(playerId, partial)` has a
`playerStates` mapping holding the field-level merge of `partial` over
the existing PlayerState for `playerId` (or over the default
`{playerId, status: active, score: 0}` when absent) ALONGSIDE every
pre-existing entry of the current mapping, unchanged; no other
GameState field is present in the partial.  The mapping has exactly one
entry only when the prior mapping had no other keys. -/
theorem updatePlayerState_merges_over_existing
    (s : ModuleState) (pid : String) (upd : PartialPlayerState) :
    recLookup ((buildPlayerStateUpdate s pid upd).playerStates.getD []) pid
      = some (mergePlayerState
          ((recLookup ((s.currentState.bind GameState.playerStates).getD []) pid).getD
            (defaultPlayerState pid)) upd)
    ∧ ((buildPlayerStateUpdate s pid upd).playerStates.getD []).filter
          (fun e => decide (e.1 ≠ pid))
        = ((s.currentState.bind GameState.playerStates).getD []).filter
            (fun e => decide (e.1 ≠ pid))
    ∧ ((buildPlayerStateUpdate s pid upd).playerStates.getD []).length
        = (if recHas ((s.currentState.bind GameState.playerStates).getD []) pid
           then ((s.currentState.bind GameState.playerStates).getD []).length
           else ((s.currentState.bind GameState.playerStates).getD []).length + 1)
    ∧ (buildPlayerStateUpdate s pid upd).sessionId = none
    ∧ (buildPlayerStateUpdate s pid upd).status = none
    ∧ (buildPlayerStateUpdate s pid upd).currentRound = none
    ∧ (buildPlayerStateUpdate s pid upd).score = none
    ∧ (buildPlayerStateUpdate s pid upd).timeRemaining = none
    ∧ (buildPlayerStateUpdate s pid upd).customData = none := by
  refine ⟨?_, ?_, ?_, rfl, rfl, rfl, rfl, rfl, rfl⟩
  · exact recLookup_recSet_self _ pid _
  · exact recSet_filter_ne _ pid _
  · exact recSet_length _ pid _

/-- Claim C2 (counterexample): when the backend leave request rejects
at the transport layer, `leaveSession` neither detaches the push
channel nor clears the local Session/GameState, and it rethrows instead
of resolving. -/
theorem leaveSession_transport_failure_keeps_state :
    (leaveSession sActive (.error "network unreachable")).1 = sActive
    ∧ (leaveSession sActive (.error "network unreachable")).1.wsConnected = true
    ∧ (leaveSession sActive (.error "network unreachable")).1.currentSession
        = some sessEx
    ∧ (leaveSession sActive (.error "network unreachable")).2 ≠ .ok () :=
  ⟨rfl, rfl, rfl, fun h => nomatch h⟩

/-- Claim C2 (amended): with an active session, `leaveSession` detaches
the push channel and clears local Session and GameState exactly when
the leave request resolves (its envelope is never inspected); when the
request rejects, it throws an INVALID_GAME_STATE error wrapping the
cause and neither detaches nor clears. -/
theorem leaveSession_clears_only_on_resolved
    (s : ModuleState) (sess : GameSession)
    (api : Except String (ApiResponse Unit))
    (h : s.currentSession = some sess) :
    (∀ r, api = .ok r →
        leaveSession s api =
          ({ s with currentSession := none, currentState := none,
                    wsConnected := false }, .ok ()))
    ∧ (∀ e, api = .error e →
        leaveSession s api =
          (s, .error (.sdk .invalidGameState "Failed to leave game session"
              (some (.raw e))))) := by
  constructor
  · intro r hr
    subst hr
    simp [leaveSession, h]
  · intro e he
    subst he
    simp [leaveSession, h]

/-- Claim C2 (witness): the amended theorem evaluated on the active
example module with a resolving leave request. -/
theorem leaveSession_clears_only_on_resolved_witness :
    leaveSession sActive (.ok { success := true }) =
      ({ sActive with currentSession := none, currentState := none,
                      wsConnected := false }, .ok ()) :=
  (leaveSession_clears_only_on_resolved sActive sessEx
    (.ok { success := true }) rfl).1 { success := true } rfl

/-- Claim C3 (code evaluated at the failing input): when the batch
transmission THROWS, the `catch` arm `this.eventQueue = [...this.eventQueue]`
loses the taken snapshot — the queue ends empty instead of holding the
un-flushed event — while the `success:false` envelope branch does
prepend the snapshot back as the spec describes. -/
theorem flushEvents_catch_arm_drops_snapshot :
    (flushEvents aEx false (.error "network unreachable") []).eventQueue = []
    ∧ (flushEvents aEx false
        (.ok { success := false, error := some "server error" }) []).eventQueue
      = [evEx] :=
  ⟨rfl, rfl⟩

/-- Claim C4 (counterexample): calling `createSession` on a module never
initialized with game info rejects with an error whose code is
INVALID_GAME_STATE — the ConfigurationError raised by
`validateInitialization` is only carried inside `details` — so the call
does not reject with a ConfigurationError as its error type. -/
theorem createSession_uninitialized_rejects_with_state_error :
    (createSession sUninit "standard" true (.ok { success := true }) (.ok ())
        okCB).2.1
      = .error (.sdk .invalidGameState "Failed to create game session"
          (some (.sdk .invalidConfiguration
            "GameStateModule not initialized with game info" none)))
    ∧ ErrorCode.invalidGameState ≠ ErrorCode.invalidConfiguration := by
  refine ⟨rfl, ?_⟩
  decide

/-- Claim C4 (amended): calling `createSession` before initialization
with game info rejects with a MutableSDKError of code INVALID_GAME_STATE
and message "Failed to create game session" whose `details` wrap the
invalid_configuration ConfigurationError from `validateInitialization`;
no session is stored, no channel attached, no subscriber notified. -/
theorem createSession_uninitialized_wraps_configuration_error
    (s : ModuleState) (modeId : String) (isPublic : Bool)
    (api : Except String (ApiResponse SessionData)) (ws : Except String Unit)
    (behavior : Nat → GameSession → Except String Unit)
    (h : s.gameInfo = none) :
    createSession s modeId isPublic api ws behavior =
      (s, .error (.sdk .invalidGameState "Failed to create game session"
          (some (.sdk .invalidConfiguration
            "GameStateModule not initialized with game info" none))),
       ⟨[], []⟩) := by
  simp [createSession, validateInitialization, h]

/-- Claim C4 (witness): the amended theorem evaluated on the
uninitialized example module. -/
theorem createSession_uninitialized_wraps_configuration_error_witness :
    createSession sUninit "standard" true (.ok { success := true }) (.ok ())
        okCB =
      (sUninit, .error (.sdk .invalidGameState "Failed to create game session"
          (some (.sdk .invalidConfiguration
            "GameStateModule not initialized with game info" none))),
       ⟨[], []⟩) :=
  createSession_uninitialized_wraps_configuration_error sUninit "standard" true
    (.ok { success := true }) (.ok ()) okCB rfl

/-- Claim C5: an inbound push-channel session snapshot replaces the
local Session wholesale — for every prior module state,
`getCurrentSession` afterwards is exactly the received snapshot, with
no field-level merge — and every session subscriber is notified with
that snapshot, in registration order. -/
theorem handleSessionUpdateEvent_replaces_wholesale
    (s : ModuleState) (snap : GameSession)
    (behavior : Nat → GameSession → Except String Unit) :
    getCurrentSession (handleSessionUpdateEvent s snap behavior).1 = some snap
    ∧ (handleSessionUpdateEvent s snap behavior).2.calls
        = s.sessionUpdateCallbacks.map (fun c => (c, snap)) := by
  constructor
  · rfl
  · simp [handleSessionUpdateEvent, notifySessionUpdateCallbacks,
      runCallbackList_calls]

/-- Claim C6: each notification pass invokes every registered callback,
in registration order, with the current snapshot; a throwing callback
contributes one caught-and-logged entry and never prevents later
callbacks from being invoked (the invocation list equals the full
callback list for every behavior, throwing or not), and the loop
returns normally rather than propagating. -/
theorem notifyCallbacks_order_and_containment
    (s : ModuleState) (st : GameState) (sess : GameSession)
    (sb : Nat → GameState → Except String Unit)
    (cb : Nat → GameSession → Except String Unit)
    (hst : s.currentState = some st)
    (hsess : s.currentSession = some sess) :
    (notifyStateUpdateCallbacks sb s).calls
        = s.stateUpdateCallbacks.map (fun c => (c, st))
    ∧ (notifyStateUpdateCallbacks sb s).logs
        = (s.stateUpdateCallbacks.filter (fun c => threw (sb c st))).map
            (fun _ => "Error in state update callback")
    ∧ (notifySessionUpdateCallbacks cb s).calls
        = s.sessionUpdateCallbacks.map (fun c => (c, sess))
    ∧ (notifySessionUpdateCallbacks cb s).logs
        = (s.sessionUpdateCallbacks.filter (fun c => threw (cb c sess))).map
            (fun _ => "Error in session update callback") := by
  refine ⟨?_, ?_, ?_, ?_⟩
  · simp [notifyStateUpdateCallbacks, hst, runCallbackList_calls]
  · simp [notifyStateUpdateCallbacks, hst, runCallbackList_logs]
  · simp [notifySessionUpdateCallbacks, hsess, runCallbackList_calls]
  · simp [notifySessionUpdateCallbacks, hsess, runCallbackList_logs]

/-- Claim C6 (witness): the theorem evaluated on the active example
module under a behavior where callback 0 throws: both subscribers are
still invoked and one log entry is produced. -/
theorem notifyCallbacks_order_and_containment_witness :
    (notifyStateUpdateCallbacks throwingSB sActive).calls
        = sActive.stateUpdateCallbacks.map (fun c => (c, gsEx))
    ∧ (notifyStateUpdateCallbacks throwingSB sActive).logs
        = (sActive.stateUpdateCallbacks.filter
            (fun c => threw (throwingSB c gsEx))).map
              (fun _ => "Error in state update callback") :=
  ⟨(notifyCallbacks_order_and_containment sActive gsEx sessEx throwingSB okCB
      rfl rfl).1,
   (notifyCallbacks_order_and_containment sActive gsEx sessEx throwingSB okCB
      rfl rfl).2.1⟩

/-- Claim C7: `endSession(winnerIds)` with an active session whose end
request resolves performs no synchronous local mutation: the module
state after the call is exactly the state before it, and the call
resolves; the completed transition is applied only by the push-channel
handler (`handleSessionUpdateEvent`) when a snapshot later delivers
it. -/
theorem endSession_no_local_mutation
    (s : ModuleState) (sess : GameSession) (w : Option (List String))
    (r : ApiResponse Unit)
    (h : s.currentSession = some sess) :
    endSession s w (.ok r) = (s, .ok ()) := by
  simp [endSession, h]

/-- Claim C7 (witness): the theorem evaluated on the active example
module with declared winners. -/
theorem endSession_no_local_mutation_witness :
    endSession sActive (some ["p1"]) (.ok { success := true })
      = (sActive, .ok ()) :=
  endSession_no_local_mutation sActive sessEx (some ["p1"])
    { success := true } rfl

/-- Claim C8: the unregister closures returned by `onStateUpdate` and
`onSessionUpdate` are idempotent — a second removal of the same
callback leaves the callback list unchanged (and, being total
functions, they never throw) — and a callback unregistered before a
notification never appears among that notification's invocations. -/
theorem unregister_idempotent_and_removed_not_invoked
    (s : ModuleState) (c : Nat)
    (sb : Nat → GameState → Except String Unit)
    (cb : Nat → GameSession → Except String Unit) :
    unregisterStateUpdate (unregisterStateUpdate s c) c
        = unregisterStateUpdate s c
    ∧ unregisterSessionUpdate (unregisterSessionUpdate s c) c
        = unregisterSessionUpdate s c
    ∧ ((notifyStateUpdateCallbacks sb (unregisterStateUpdate s c)).calls.all
        (fun p => decide (p.1 ≠ c))) = true
    ∧ ((notifySessionUpdateCallbacks cb (unregisterSessionUpdate s c)).calls.all
        (fun p => decide (p.1 ≠ c))) = true := by
  refine ⟨?_, ?_, ?_, ?_⟩
  · simp [unregisterStateUpdate, filter_ne_idem]
  · simp [unregisterSessionUpdate, filter_ne_idem]
  · cases hcs : s.currentState with
    | none =>
      simp [notifyStateUpdateCallbacks, unregisterStateUpdate, hcs]
    | some st =>
      simp [notifyStateUpdateCallbacks, unregisterStateUpdate, hcs,
        runCallbackList_calls, all_fst_map, all_filter_self]
      intro a b x _ hxc hxa _
      exact hxa ▸ hxc
  · cases hcs : s.currentSession with
    | none =>
      simp [notifySessionUpdateCallbacks, unregisterSessionUpdate, hcs]
    | some sess =>
      simp [notifySessionUpdateCallbacks, unregisterSessionUpdate, hcs,
        runCallbackList_calls, all_fst_map, all_filter_self]
      intro a b x _ hxc hxa _
      exact hxa ▸ hxc

/-- Claim C9: `leaveSession` with no active session resolves without
throwing and returns the module state untouched — Session, GameState
and every registered subscription list included — whatever the
transport would have done. -/
theorem leaveSession_no_session_noop
    (s : ModuleState) (api : Except String (ApiResponse Unit))
    (h : s.currentSession = none) :
    leaveSession s api = (s, .ok ()) := by
  simp [leaveSession, h]

/-- Claim C9 (witness): the theorem evaluated on the session-less
example module, under a transport that would have rejected. -/
theorem leaveSession_no_session_noop_witness :
    leaveSession sNoSession (.error "network unreachable")
      = (sNoSession, .ok ()) :=
  leaveSession_no_session_noop sNoSession (.error "network unreachable") rfl

/-- Claim C10: subscriber callbacks are never invoked with an absent
snapshot: when the local GameState (resp. Session) is undefined the
notification routine invokes nothing, and every invocation an actual
notification performs carries exactly the defined current snapshot. -/
theorem notify_skips_absent_snapshot
    (s : ModuleState)
    (sb : Nat → GameState → Except String Unit)
    (cb : Nat → GameSession → Except String Unit) :
    (s.currentState = none → notifyStateUpdateCallbacks sb s = ⟨[], []⟩)
    ∧ (s.currentSession = none → notifySessionUpdateCallbacks cb s = ⟨[], []⟩)
    ∧ (∀ p ∈ (notifyStateUpdateCallbacks sb s).calls,
        s.currentState = some p.2)
    ∧ (∀ p ∈ (notifySessionUpdateCallbacks cb s).calls,
        s.currentSession = some p.2) := by
  refine ⟨?_, ?_, ?_, ?_⟩
  · intro h
    simp [notifyStateUpdateCallbacks, h]
  · intro h
    simp [notifySessionUpdateCallbacks, h]
  · intro p hp
    cases hcs : s.currentState with
    | none =>
      rw [notifyStateUpdateCallbacks, hcs] at hp
      simp at hp
    | some st =>
      rw [notifyStateUpdateCallbacks, hcs, runCallbackList_calls] at hp
      rcases List.mem_map.mp hp with ⟨c, _, hc⟩
      rw [← hc]
  · intro p hp
    cases hcs : s.currentSession with
    | none =>
      rw [notifySessionUpdateCallbacks, hcs] at hp
      simp at hp
    | some sess =>
      rw [notifySessionUpdateCallbacks, hcs, runCallbackList_calls] at hp
      rcases List.mem_map.mp hp with ⟨c, _, hc⟩
      rw [← hc]

/-- Claim C10 (witness): the theorem evaluated on a module with
registered subscribers but no snapshot present: nothing is invoked. -/
theorem notify_skips_absent_snapshot_witness :
    notifyStateUpdateCallbacks okSB sEmpty = ⟨[], []⟩
    ∧ notifySessionUpdateCallbacks okCB sEmpty = ⟨[], []⟩ :=
  ⟨(notify_skips_absent_snapshot sEmpty okSB okCB).1 rfl,
   (notify_skips_absent_snapshot sEmpty okSB okCB).2.1 rfl⟩

end Mutable
